import Mathlib

/-!
Shallow embedding of the reflow-oven-controller firmware core
(`src/Core/Src/{pid.c, active.c, reflow.c}` and their headers), together
with theorems settling the specification claims.

Modelling conventions:
* C `float` values are modelled as exact rationals (`ℚ`); the claims under
  study are about the algebraic structure of the computations (which terms
  accumulate, which fields change), not about rounding.
* C unsigned integers are modelled as `Nat` with explicit `% 2^32`
  (resp. `% 2^16`) wherever the source can wrap.
* The C cast `(uint32_t)f` of a nonnegative float truncates toward zero,
  i.e. takes the floor; `castToUInt32` embeds that.
* Fallible operations return `Option`; hardware side effects (PWM, OS
  timers, event posts) are recorded in an explicit effect trace.
-/

namespace Reflow

/-- The C cast `(uint32_t)x` applied to a (nonnegative) float value:
truncation toward zero, which for nonnegative values is the floor. -/
def castToUInt32 (q : ℚ) : Nat := (⌊q⌋).toNat % 4294967296

/-- The C cast `(uint16_t)x` applied to a (nonnegative) float value:
truncation toward zero, which for nonnegative values is the floor. -/
def castToUInt16 (q : ℚ) : Nat := (⌊q⌋).toNat % 65536

/-! ## PID controller (`pid.c` / `pid.h`) -/

/-- `PID_t` from `pid.h`: gains, filter constant, sample time, output
limits, and controller memory. -/
structure PID_t where
  Kp : ℚ
  Ki : ℚ
  Kd : ℚ
  tau : ℚ
  Ts : ℚ
  out_lim_max : ℚ
  out_lim_min : ℚ
  integral : ℚ
  derivative : ℚ
  prev_error : ℚ
  prev_measurement : ℚ
  proportional : ℚ
  out : ℚ
  deriving DecidableEq, Repr

/-- `PID_cfg_t` from `pid.h`. -/
structure PID_cfg_t where
  Kp : ℚ
  Ki : ℚ
  Kd : ℚ
  tau : ℚ
  Ts : ℚ
  out_max : ℚ
  out_min : ℚ
  deriving DecidableEq, Repr

/-- `SAMESIGN(X, Y)` from `pid.c`: `((X) <= 0) == ((Y) <= 0)`. -/
def SAMESIGN (x y : ℚ) : Prop := (x ≤ 0) ↔ (y ≤ 0)

instance (x y : ℚ) : Decidable (SAMESIGN x y) := by
  unfold SAMESIGN; infer_instance

/-- `PID_Reset` from `pid.c`: clear the controller memory fields only. -/
def PID_Reset (pid : PID_t) : PID_t :=
  { pid with
    integral := 0
    prev_error := 0
    derivative := 0
    prev_measurement := 0
    out := 0
    proportional := 0 }

/-- `PID_Init` from `pid.c`: clear controller memory, then store the
configured parameters. -/
def PID_Init (pid : PID_t) (cfg : PID_cfg_t) : PID_t :=
  let p := PID_Reset pid
  { p with
    Kp := cfg.Kp
    Ki := cfg.Ki
    Kd := cfg.Kd
    tau := cfg.tau
    Ts := cfg.Ts
    out_lim_max := cfg.out_max
    out_lim_min := cfg.out_min }

/-- `PID_Calculate` from `pid.c`: one discrete PID iteration. Returns the
updated controller state together with the returned output value. -/
def PID_Calculate (pid : PID_t) (setpoint measurement : ℚ) : PID_t × ℚ :=
  let error := setpoint - measurement
  let proportional := pid.Kp * error
  let integral :=
    if (pid.out = pid.out_lim_max ∨ pid.out = pid.out_lim_min) ∧
        SAMESIGN pid.out error then
      pid.integral
    else
      pid.integral + (1/2) * pid.Ki * pid.Ts * (error + pid.prev_error)
  let derivative :=
    -(2 * pid.Kd * (measurement - pid.prev_measurement) +
        (2 * pid.tau - pid.Ts) * pid.derivative) / (2 * pid.tau + pid.Ts)
  let out0 := proportional + integral + derivative
  let out1 :=
    if out0 > pid.out_lim_max then pid.out_lim_max
    else if out0 < pid.out_lim_min then pid.out_lim_min
    else out0
  ({ pid with
      proportional := proportional
      integral := integral
      derivative := derivative
      out := out1
      prev_error := error
      prev_measurement := measurement }, out1)

/-! ## Active-object framework (`active.c` / `active.h`) -/

/-- `Signal` from `active.h` (`typedef int32_t Signal`). -/
abbrev Signal := Int

/-- `Event` base class from `active.h`. -/
structure Event where
  sig : Signal
  deriving DecidableEq, Repr

/-- `TimeEvent` from `active.h`: the inherited base event, the countdown
(`timeout`, 0 means disarmed) and the `reload` value (0 means one-shot).
The owning active object is left implicit: every post in this model goes
to the event's owner. -/
structure TimeEvent where
  base : Event
  timeout : Nat
  reload : Nat
  deriving DecidableEq, Repr

/-- `TimeEvent_ctor` from `active.c`: initially disarmed. -/
def TimeEvent_ctor (sig : Signal) : TimeEvent :=
  { base := { sig := sig }, timeout := 0, reload := 0 }

/-- `TimeEvent_arm` from `active.c` (countdown fields only; the lazy
start of the shared periodic tick source is an external timer effect). -/
def TimeEvent_arm (t : TimeEvent) (timeout reload : Nat) : TimeEvent :=
  { t with timeout := timeout, reload := reload }

/-- `TimeEvent_disarm` from `active.c`. -/
def TimeEvent_disarm (t : TimeEvent) : TimeEvent :=
  { t with timeout := 0 }

/-- The body of the per-event loop in `TimeEvent_tick` (`active.c`):
decrement a nonzero countdown; on reaching zero, post `base` to the
owner and reset the countdown to `reload`.  Returns the updated event
and the list of events posted (empty or singleton). -/
def TimeEvent_tick1 (t : TimeEvent) : TimeEvent × List Event :=
  if 0 < t.timeout then
    let t1 := { t with timeout := t.timeout - 1 }
    if t1.timeout = 0 then ({ t1 with timeout := t.reload }, [t.base])
    else (t1, [])
  else (t, [])

/-- `TimeEvent_tick` from `active.c`: scan the registered table in order,
applying `TimeEvent_tick1` to each entry and collecting the posts. -/
def TimeEvent_tick : List TimeEvent → List TimeEvent × List Event
  | [] => ([], [])
  | t :: ts =>
      let p := TimeEvent_tick1 t
      let q := TimeEvent_tick ts
      (p.1 :: q.1, p.2 ++ q.2)

/-- Iterate `TimeEvent_tick1` a given number of ticks on a single time
event, counting the total number of posts. -/
def TimeEvent_ticks : Nat → TimeEvent → TimeEvent × Nat
  | 0, t => (t, 0)
  | n + 1, t =>
      let p := TimeEvent_tick1 t
      let q := TimeEvent_ticks n p.1
      (q.1, p.2.length + q.2)

/-- `mod_err_t` from `common.h`. -/
inductive mod_err_t
  | MOD_OK
  | MOD_ERR
  | MOD_ERR_ARG
  | MOD_ERR_RESOURCE
  | MOD_ERR_BAD_CMD
  | MOD_ERR_BUF_OVERRUN
  | MOD_ERR_NOT_INIT
  | MOD_ERR_BAD_INSTANCE
  | MOD_ERR_PERIPH
  | MOD_ERR_TIMEOUT
  | MOD_DID_NOTHING
  deriving DecidableEq, Repr

/-- An active object's bounded event queue (capacity fixed at
`Active_start`, holding event references). -/
structure MsgQueue where
  capacity : Nat
  msgs : List Event
  deriving DecidableEq, Repr

/-- Modelled from the spec: `osMessageQueuePut` with zero timeout is a
CMSIS-RTOS primitive, an external collaborator not among this
repository's sources.  Per the spec's queue contract (bounded strict
FIFO; a put on a full queue fails without blocking and leaves the
queue's contents and order unchanged) it appends to the back when the
queue is below capacity and fails otherwise. -/
def osMessageQueuePut (q : MsgQueue) (e : Event) : Option MsgQueue :=
  if q.msgs.length < q.capacity then some { q with msgs := q.msgs ++ [e] }
  else none

/-- `Active_post` from `active.c`: non-blocking enqueue of an event
reference; any enqueue failure is mapped to `MOD_ERR_TIMEOUT`. -/
def Active_post (q : MsgQueue) (e : Event) : mod_err_t × MsgQueue :=
  match osMessageQueuePut q e with
  | none => (mod_err_t.MOD_ERR_TIMEOUT, q)
  | some q2 => (mod_err_t.MOD_OK, q2)

/-! ## Claims C9 and C5 -/

/-- C9: `Active_post` on a queue at capacity returns `MOD_ERR_TIMEOUT`
and leaves the queue (contents and order) unchanged; on a queue below
capacity it returns `MOD_OK`, appending the event at the back. -/
theorem active_post_spec (q : MsgQueue) (e : Event) :
    (q.capacity ≤ q.msgs.length →
      Active_post q e = (mod_err_t.MOD_ERR_TIMEOUT, q)) ∧
    (q.msgs.length < q.capacity →
      Active_post q e = (mod_err_t.MOD_OK, { q with msgs := q.msgs ++ [e] })) := by
  constructor
  · intro hfull
    unfold Active_post osMessageQueuePut
    rw [if_neg (not_lt.mpr hfull)]
  · intro hroom
    unfold Active_post osMessageQueuePut
    rw [if_pos hroom]

/-- Witness for `active_post_spec`: a full one-slot queue rejects with
`MOD_ERR_TIMEOUT` and keeps its content; an empty one accepts. -/
theorem active_post_spec_witness :
    Active_post { capacity := 1, msgs := [{ sig := 7 }] } { sig := 9 } =
      (mod_err_t.MOD_ERR_TIMEOUT, { capacity := 1, msgs := [{ sig := 7 }] }) ∧
    Active_post { capacity := 1, msgs := [] } { sig := 9 } =
      (mod_err_t.MOD_OK, { capacity := 1, msgs := [{ sig := 9 }] }) :=
  ⟨(active_post_spec { capacity := 1, msgs := [{ sig := 7 }] } { sig := 9 }).1
      (by decide),
   (active_post_spec { capacity := 1, msgs := [] } { sig := 9 }).2
      (by decide)⟩

/-- Ticks leave a disarmed event (countdown 0) unchanged and post
nothing, for any number of ticks. -/
theorem ticks_disarmed (n : Nat) (b : Event) (r : Nat) :
    TimeEvent_ticks n ⟨b, 0, r⟩ = (⟨b, 0, r⟩, 0) := by
  induction n with
  | zero => rfl
  | succ n ih => simp [TimeEvent_ticks, TimeEvent_tick1, ih]

/-- While the countdown stays positive, each tick decrements it by one
and posts nothing. -/
theorem ticks_down (k : Nat) : ∀ n rl : Nat, ∀ b : Event, k < n →
    TimeEvent_ticks k ⟨b, n, rl⟩ = (⟨b, n - k, rl⟩, 0) := by
  induction k with
  | zero => intro n rl b _; rfl
  | succ k ih =>
      intro n rl b h
      have h0 : 0 < n := by omega
      have hne : ¬(n - 1 = 0) := by omega
      have hk : k < n - 1 := by omega
      have hsub : n - 1 - k = n - (k + 1) := by omega
      simp only [TimeEvent_ticks, TimeEvent_tick1, h0, if_true, hne, if_false,
        List.length_nil, Nat.zero_add]
      rw [ih (n - 1) rl b hk, hsub]

/-- A one-shot (reload 0) event with countdown `n > 0` posts exactly once
within the first `k ≥ n` ticks and is disarmed afterwards. -/
theorem ticks_oneshot_done (k : Nat) : ∀ n : Nat, ∀ b : Event, 0 < n → n ≤ k →
    TimeEvent_ticks k ⟨b, n, 0⟩ = (⟨b, 0, 0⟩, 1) := by
  induction k with
  | zero => intro n b h1 h2; omega
  | succ k ih =>
      intro n b h1 h2
      by_cases hn : n = 1
      · subst hn
        simp [TimeEvent_ticks, TimeEvent_tick1, ticks_disarmed]
      · have h0 : 0 < n := h1
        have hne : ¬(n - 1 = 0) := by omega
        simp only [TimeEvent_ticks, TimeEvent_tick1, h0, if_true, hne, if_false,
          List.length_nil, Nat.zero_add]
        exact ih (n - 1) b (by omega) (by omega)

/-- Tick counts compose: running `a + b` ticks equals running `a` ticks
and then `b` more from the resulting event, adding the post counts. -/
theorem ticks_add (a : Nat) : ∀ (c : Nat) (t : TimeEvent),
    TimeEvent_ticks (a + c) t =
      ((TimeEvent_ticks c (TimeEvent_ticks a t).1).1,
       (TimeEvent_ticks a t).2 + (TimeEvent_ticks c (TimeEvent_ticks a t).1).2) := by
  induction a with
  | zero => intro c t; rw [Nat.zero_add]; simp [TimeEvent_ticks]
  | succ a ih =>
      intro c t
      have hadd : a + 1 + c = (a + c) + 1 := by omega
      rw [hadd]
      simp only [TimeEvent_ticks]
      rw [ih]
      exact Prod.ext rfl (by omega)

/-- A periodic event armed with countdown and reload both `r > 0` returns
to exactly that armed configuration after `r` ticks, having posted once. -/
theorem ticks_period (r : Nat) (b : Event) (h : 0 < r) :
    TimeEvent_ticks r ⟨b, r, r⟩ = (⟨b, r, r⟩, 1) := by
  obtain ⟨s, rfl⟩ : ∃ s, r = s + 1 := ⟨r - 1, by omega⟩
  rw [ticks_add s 1]
  rw [ticks_down s (s + 1) (s + 1) b (by omega)]
  have hs : s + 1 - s = 1 := by omega
  rw [hs]
  simp [TimeEvent_ticks, TimeEvent_tick1]

/-- A periodic event armed at `r > 0` posts exactly `q` times in `q * r`
ticks and is again armed at `r` afterwards. -/
theorem ticks_periodic (q : Nat) : ∀ r : Nat, ∀ b : Event, 0 < r →
    TimeEvent_ticks (q * r) ⟨b, r, r⟩ = (⟨b, r, r⟩, q) := by
  induction q with
  | zero => intro r b h; simp [TimeEvent_ticks]
  | succ q ih =>
      intro r b h
      have : (q + 1) * r = q * r + r := by ring
      rw [this, ticks_add, ih r b h, ticks_period r b h]

/-- C5: per tick, a nonzero countdown is decremented and a zero countdown
is untouched; a decrement that reaches zero posts the event's base and
reinstates the reload value; the table tick handler applies exactly this
to every registered event, concatenating the posts in table order.
Consequently a one-shot arm (timeout `n > 0`, reload 0) posts nothing in
the first `k < n` ticks, posts exactly once by any `k ≥ n` ticks, and is
disarmed thereafter; a periodic arm (timeout = reload = `r > 0`) posts
nothing strictly within a period and exactly `q` times in `q * r` ticks,
ending re-armed at `r`. -/
theorem time_event_tick_spec :
    (∀ t : TimeEvent, t.timeout = 0 → TimeEvent_tick1 t = (t, [])) ∧
    (∀ t : TimeEvent, 1 < t.timeout →
      TimeEvent_tick1 t = ({ t with timeout := t.timeout - 1 }, [])) ∧
    (∀ t : TimeEvent, t.timeout = 1 →
      TimeEvent_tick1 t = ({ t with timeout := t.reload }, [t.base])) ∧
    (∀ ts : List TimeEvent,
      TimeEvent_tick ts =
        (ts.map fun t => (TimeEvent_tick1 t).1,
         ts.flatMap fun t => (TimeEvent_tick1 t).2)) ∧
    (∀ (b : Event) (n k : Nat), 0 < n → k < n →
      TimeEvent_ticks k (TimeEvent_arm ⟨b, 0, 0⟩ n 0) = (⟨b, n - k, 0⟩, 0)) ∧
    (∀ (b : Event) (n k : Nat), 0 < n → n ≤ k →
      TimeEvent_ticks k (TimeEvent_arm ⟨b, 0, 0⟩ n 0) = (⟨b, 0, 0⟩, 1)) ∧
    (∀ (b : Event) (r k : Nat), 0 < r → k < r →
      TimeEvent_ticks k (TimeEvent_arm ⟨b, 0, 0⟩ r r) = (⟨b, r - k, r⟩, 0)) ∧
    (∀ (b : Event) (r q : Nat), 0 < r →
      TimeEvent_ticks (q * r) (TimeEvent_arm ⟨b, 0, 0⟩ r r) = (⟨b, r, r⟩, q)) := by
  refine ⟨?_, ?_, ?_, ?_, ?_, ?_, ?_, ?_⟩
  · intro t h
    simp [TimeEvent_tick1, h]
  · intro t h
    have h0 : 0 < t.timeout := by omega
    have hne : ¬(t.timeout - 1 = 0) := by omega
    simp [TimeEvent_tick1, h0, hne]
  · intro t h
    simp [TimeEvent_tick1, h]
  · intro ts
    induction ts with
    | nil => rfl
    | cons t ts ih => simp [TimeEvent_tick, ih]
  · intro b n k h1 h2
    exact ticks_down k n 0 b h2
  · intro b n k h1 h2
    exact ticks_oneshot_done k n b h1 h2
  · intro b r k h1 h2
    exact ticks_down k r r b h2
  · intro b r q h
    exact ticks_periodic q r b h

/-- Witness for `time_event_tick_spec`: a one-shot arm at 5 posts exactly
once within 5 ticks and ends disarmed; a periodic arm at 3 posts exactly
3 times in 9 ticks and ends re-armed. -/
theorem time_event_tick_spec_witness :
    TimeEvent_ticks 5 (TimeEvent_arm ⟨⟨11⟩, 0, 0⟩ 5 0) = (⟨⟨11⟩, 0, 0⟩, 1) ∧
    TimeEvent_ticks (3 * 3) (TimeEvent_arm ⟨⟨11⟩, 0, 0⟩ 3 3) = (⟨⟨11⟩, 3, 3⟩, 3) :=
  ⟨time_event_tick_spec.2.2.2.2.2.1 ⟨11⟩ 5 5 (by decide) (by decide),
   time_event_tick_spec.2.2.2.2.2.2.2 ⟨11⟩ 3 3 (by decide)⟩

/-! ## Reflow state machine (`reflow.c` / `reflow.h`) -/

/-- `Reflow_State` from `reflow.c`. -/
inductive Reflow_State
  | RESET_STATE
  | PREHEAT_STATE
  | SOAK_STATE
  | RAMPUP_STATE
  | PEAK_STATE
  | COOLDOWN_STATE
  deriving DecidableEq, Repr

open Reflow_State

/-- The numeric value of each `Reflow_State` enumerator in the C source. -/
def stateIdx : Reflow_State → Nat
  | RESET_STATE => 0
  | PREHEAT_STATE => 1
  | SOAK_STATE => 2
  | RAMPUP_STATE => 3
  | PEAK_STATE => 4
  | COOLDOWN_STATE => 5

/-- `NUM_REFLOW_STATES` from the `Reflow_State` enum. -/
def NUM_REFLOW_STATES : Nat := 6

/-- `NUM_PROFILE_PHASES = NUM_REFLOW_STATES - 1` from `reflow.c`. -/
def NUM_PROFILE_PHASES : Nat := NUM_REFLOW_STATES - 1

/-- `Reflow_Status` from `reflow.c`. -/
inductive Reflow_Status
  | TRAN_STATUS
  | HANDLED_STATUS
  | IGNORE_STATUS
  | INIT_STATUS
  deriving DecidableEq, Repr

open Reflow_Status

/-- The six signals a reflow event can carry: the two reserved signals
(`INIT_SIG`, `ENTRY_SIG` from `active.h`) followed by the four members of
`ReflowSignal` (`reflow.h`), in their C enumeration order. -/
inductive ReflowSig
  | INIT_SIG
  | ENTRY_SIG
  | START_REFLOW_SIG
  | REACH_TIME_SIG
  | REACH_TEMP_SIG
  | STOP_REFLOW_SIG
  deriving DecidableEq, Repr

open ReflowSig

/-- The anonymous `phase_type` enum inside `Reflow_Phase`. -/
inductive PhaseType
  | REACHTEMP
  | REACHTIME
  deriving DecidableEq, Repr

open PhaseType

/-- `Reflow_Phase` from `reflow.c` (`reach_temp`/`reach_time` are
`uint32_t`; fields not named in an initializer are zero in C). -/
structure Reflow_Phase where
  phase_type : PhaseType
  reach_temp : Nat
  reach_time : Nat
  deriving DecidableEq, Repr

/-- The `reflow_phases` initializer of the static `reflow_ao`:
pre-heat, soak, ramp-up, peak, cool-down. -/
def reflow_phases_list : List Reflow_Phase :=
  [{ phase_type := REACHTEMP, reach_temp := 100, reach_time := 0 },
   { phase_type := REACHTIME, reach_temp := 150, reach_time := 120 },
   { phase_type := REACHTEMP, reach_temp := 215, reach_time := 0 },
   { phase_type := REACHTIME, reach_temp := 215, reach_time := 5 },
   { phase_type := REACHTEMP, reach_temp := 35, reach_time := 0 }]

/-- In-bounds access into the fixed profile phase array. -/
def reflow_phases (i : Fin 5) : Reflow_Phase := reflow_phases_list.get i

/-- The array index `state - 1` used by `reflow.c` to address
`reflow_phases`, as an in-bounds index when one exists: `RESET_STATE`
(enum value 0) has no profile phase — indexing with it would be out of
bounds — and every other state maps to `stateIdx - 1`. -/
def phaseOf : Reflow_State → Option (Fin 5)
  | RESET_STATE => none
  | PREHEAT_STATE => some 0
  | SOAK_STATE => some 1
  | RAMPUP_STATE => some 2
  | PEAK_STATE => some 3
  | COOLDOWN_STATE => some 4

/-- Hardware/OS side effects performed by the reflow code, recorded as an
explicit trace: PWM compare-register writes, PWM start/stop, the periodic
PID timer, the reflow time event, and events posted to the reflow active
object itself. -/
inductive Effect
  | pwmSetCompare (v : Nat)
  | pwmStop
  | pwmStart
  | pidTimerStart (period_ms : Nat)
  | pidTimerStop
  | timeEvtArm (timeout reload : Nat)
  | timeEvtDisarm
  | postSignal (s : ReflowSig)
  deriving DecidableEq, Repr

/-- The mutable part of `Reflow_Active` from `reflow.c` (the PWM/timer
handles live in the effect trace; the phase array is the fixed
`reflow_phases`). -/
structure Reflow_Active where
  state : Reflow_State
  pid_params : PID_t
  step_size : ℚ
  setpoint : ℚ
  deriving DecidableEq, Repr

/-- `ReflowAction` from `reflow.c`: an action receives the object (and
here also the outcome of `readTemperature`, the one fallible input an
action consults) and returns a status, the updated object, and the
effect trace. -/
def ReflowAction :=
  Reflow_Active → Option ℚ → Reflow_Status × Reflow_Active × List Effect

def Reflow_reset_INIT : ReflowAction := fun ao _ =>
  (INIT_STATUS, { ao with state := RESET_STATE }, [])

def Reflow_reset_ENTRY : ReflowAction := fun ao _ =>
  (HANDLED_STATUS, { ao with pid_params := PID_Reset ao.pid_params },
   [.pwmSetCompare 0, .pwmStop, .pidTimerStop, .timeEvtDisarm])

def Reflow_preheat_ENTRY : ReflowAction := fun ao _ =>
  (HANDLED_STATUS, { ao with setpoint := ((reflow_phases 0).reach_temp : ℚ) },
   [.pwmStart, .pidTimerStart (castToUInt32 (ao.pid_params.Ts * 1000))])

def Reflow_soak_ENTRY : ReflowAction := fun ao _ =>
  (HANDLED_STATUS,
   { ao with step_size :=
       (((reflow_phases 1).reach_temp - (reflow_phases 0).reach_temp : Nat) : ℚ) /
         (((reflow_phases 1).reach_time : ℚ) * (1 / ao.pid_params.Ts)) },
   [.timeEvtArm (reflow_phases 1).reach_time 0])

def Reflow_rampup_ENTRY : ReflowAction := fun ao _ =>
  (HANDLED_STATUS, { ao with setpoint := ((reflow_phases 2).reach_temp : ℚ) }, [])

def Reflow_peak_ENTRY : ReflowAction := fun ao _ =>
  (HANDLED_STATUS, { ao with step_size := 0 },
   [.timeEvtArm (reflow_phases 3).reach_time 0])

def Reflow_cooldown_ENTRY : ReflowAction := fun ao _ =>
  (HANDLED_STATUS, { ao with setpoint := ((reflow_phases 4).reach_temp : ℚ) }, [])

/-- `Reflow_reset_START` from `reflow.c`: refuse to start if the
temperature cannot be read, or if the reading, cast to `uint32_t`,
exceeds the cool-down phase's target; otherwise transition to
`PREHEAT_STATE`. -/
def Reflow_reset_START : ReflowAction := fun ao reading =>
  match reading with
  | none => (HANDLED_STATUS, ao, [])
  | some current_temp =>
      if (reflow_phases 4).reach_temp < castToUInt32 current_temp then
        (HANDLED_STATUS, ao, [])
      else
        (TRAN_STATUS, { ao with state := PREHEAT_STATE }, [])

def Reflow_preheat_REACHTEMP : ReflowAction := fun ao _ =>
  (TRAN_STATUS, { ao with state := SOAK_STATE }, [])

def Reflow_soak_REACHTIME : ReflowAction := fun ao _ =>
  (TRAN_STATUS, { ao with state := RAMPUP_STATE }, [])

def Reflow_rampup_REACHTEMP : ReflowAction := fun ao _ =>
  (TRAN_STATUS, { ao with state := PEAK_STATE }, [])

def Reflow_peak_REACHTIME : ReflowAction := fun ao _ =>
  (TRAN_STATUS, { ao with state := COOLDOWN_STATE }, [])

def Reflow_cooldown_REACHTEMP : ReflowAction := fun ao _ =>
  (TRAN_STATUS, { ao with state := RESET_STATE }, [])

def Reflow_STOP : ReflowAction := fun ao _ =>
  (TRAN_STATUS, { ao with state := RESET_STATE }, [.pidTimerStop])

def Reflow_ignore : ReflowAction := fun ao _ =>
  (IGNORE_STATUS, ao, [])

/-- `Reflow_state_table` from `reflow.c`: row = state, column = signal. -/
def Reflow_state_table : Reflow_State → ReflowSig → ReflowAction
  | RESET_STATE, INIT_SIG => Reflow_reset_INIT
  | RESET_STATE, ENTRY_SIG => Reflow_reset_ENTRY
  | RESET_STATE, START_REFLOW_SIG => Reflow_reset_START
  | RESET_STATE, REACH_TIME_SIG => Reflow_ignore
  | RESET_STATE, REACH_TEMP_SIG => Reflow_ignore
  | RESET_STATE, STOP_REFLOW_SIG => Reflow_ignore
  | PREHEAT_STATE, INIT_SIG => Reflow_ignore
  | PREHEAT_STATE, ENTRY_SIG => Reflow_preheat_ENTRY
  | PREHEAT_STATE, START_REFLOW_SIG => Reflow_ignore
  | PREHEAT_STATE, REACH_TIME_SIG => Reflow_ignore
  | PREHEAT_STATE, REACH_TEMP_SIG => Reflow_preheat_REACHTEMP
  | PREHEAT_STATE, STOP_REFLOW_SIG => Reflow_STOP
  | SOAK_STATE, INIT_SIG => Reflow_ignore
  | SOAK_STATE, ENTRY_SIG => Reflow_soak_ENTRY
  | SOAK_STATE, START_REFLOW_SIG => Reflow_ignore
  | SOAK_STATE, REACH_TIME_SIG => Reflow_soak_REACHTIME
  | SOAK_STATE, REACH_TEMP_SIG => Reflow_ignore
  | SOAK_STATE, STOP_REFLOW_SIG => Reflow_STOP
  | RAMPUP_STATE, INIT_SIG => Reflow_ignore
  | RAMPUP_STATE, ENTRY_SIG => Reflow_rampup_ENTRY
  | RAMPUP_STATE, START_REFLOW_SIG => Reflow_ignore
  | RAMPUP_STATE, REACH_TIME_SIG => Reflow_ignore
  | RAMPUP_STATE, REACH_TEMP_SIG => Reflow_rampup_REACHTEMP
  | RAMPUP_STATE, STOP_REFLOW_SIG => Reflow_STOP
  | PEAK_STATE, INIT_SIG => Reflow_ignore
  | PEAK_STATE, ENTRY_SIG => Reflow_peak_ENTRY
  | PEAK_STATE, START_REFLOW_SIG => Reflow_ignore
  | PEAK_STATE, REACH_TIME_SIG => Reflow_peak_REACHTIME
  | PEAK_STATE, REACH_TEMP_SIG => Reflow_ignore
  | PEAK_STATE, STOP_REFLOW_SIG => Reflow_STOP
  | COOLDOWN_STATE, INIT_SIG => Reflow_ignore
  | COOLDOWN_STATE, ENTRY_SIG => Reflow_cooldown_ENTRY
  | COOLDOWN_STATE, START_REFLOW_SIG => Reflow_ignore
  | COOLDOWN_STATE, REACH_TIME_SIG => Reflow_ignore
  | COOLDOWN_STATE, REACH_TEMP_SIG => Reflow_cooldown_REACHTEMP
  | COOLDOWN_STATE, STOP_REFLOW_SIG => Reflow_STOP

/-- `reflow_evt_handler` from `reflow.c`: look the action up in the
table, run it, and when it reports `TRAN_STATUS` (or `INIT_STATUS`) run
the entry action of the state the action recorded.  The final component
is the sequence of table cells invoked, in order, so that "the entry
action runs exactly once after the action" is a statement about the
returned trace. -/
def reflow_evt_handler (ao : Reflow_Active) (reading : Option ℚ) (sig : ReflowSig) :
    Reflow_Status × Reflow_Active × List Effect × List (Reflow_State × ReflowSig) :=
  let r1 := Reflow_state_table ao.state sig ao reading
  if r1.1 = TRAN_STATUS then
    let r2 := Reflow_state_table r1.2.1.state ENTRY_SIG r1.2.1 reading
    (r1.1, r2.2.1, r1.2.2 ++ r2.2.2, [(ao.state, sig), (r1.2.1.state, ENTRY_SIG)])
  else if r1.1 = INIT_STATUS then
    let r2 := Reflow_state_table r1.2.1.state ENTRY_SIG r1.2.1 reading
    (r1.1, r2.2.1, r1.2.2 ++ r2.2.2, [(ao.state, sig), (r1.2.1.state, ENTRY_SIG)])
  else
    (r1.1, r1.2.1, r1.2.2, [(ao.state, sig)])

/-- The tolerance test in `reflow_pid_iteration` (`reflow.c`):
`reach_temp > (uint32_t)temp_reading - 2U && reach_temp < (uint32_t)temp_reading + 2U`,
with both operands computed in `uint32_t` arithmetic — the subtraction
wraps modulo 2^32 when the truncated reading is below 2. -/
def leewayCheck (reach_temp t : Nat) : Bool :=
  decide ((t + (4294967296 - 2)) % 4294967296 < reach_temp) &&
    decide (reach_temp < (t + 2) % 4294967296)

/-- `reflow_pid_iteration` from `reflow.c`, the periodic control tick:
read the temperature (the local `temp_reading` stays 0 and `STOP_REFLOW`
is posted when the read fails, without returning); for a `REACHTEMP`
phase post `REACH_TEMP` when `leewayCheck` passes, for a `REACHTIME`
phase advance the setpoint by `step_size`; then run one `PID_Calculate`
and write the (uint16-cast) output to the PWM compare register.  The
result is `none` exactly when `state` is `RESET_STATE`, where the C code
would index the phase array at `-1` (out of bounds). -/
def reflow_pid_iteration (ao : Reflow_Active) (reading : Option ℚ) :
    Option (Reflow_Active × List Effect) :=
  match phaseOf ao.state with
  | none => none
  | some i =>
      let temp_reading : ℚ := match reading with | none => 0 | some t => t
      let stopFx : List Effect :=
        match reading with | none => [.postSignal STOP_REFLOW_SIG] | some _ => []
      let ph := reflow_phases i
      if ph.phase_type = REACHTEMP then
        let reachFx : List Effect :=
          if leewayCheck ph.reach_temp (castToUInt32 temp_reading) then
            [.postSignal REACH_TEMP_SIG]
          else []
        let r := PID_Calculate ao.pid_params ao.setpoint temp_reading
        some ({ ao with pid_params := r.1 },
          stopFx ++ reachFx ++ [.pwmSetCompare (castToUInt16 r.2)])
      else
        let sp := ao.setpoint + ao.step_size
        let r := PID_Calculate ao.pid_params sp temp_reading
        some ({ ao with setpoint := sp, pid_params := r.1 },
          stopFx ++ [.pwmSetCompare (castToUInt16 r.2)])

/-- The static PID configuration `reflow_pid_cfg` from `reflow_init`
(`KP_INIT` .. `OUT_MIN_INIT` in `reflow.h`). -/
def reflow_pid_cfg : PID_cfg_t :=
  { Kp := 10, Ki := 0, Kd := 0, tau := 1, Ts := 1/2, out_max := 4095, out_min := 0 }

/-- An all-zero `PID_t`, the state of the static `reflow_ao.pid_params`
before `reflow_init` runs (C static objects are zero-initialized). -/
def pid_zero : PID_t :=
  { Kp := 0, Ki := 0, Kd := 0, tau := 0, Ts := 0, out_lim_max := 0, out_lim_min := 0,
    integral := 0, derivative := 0, prev_error := 0, prev_measurement := 0,
    proportional := 0, out := 0 }

/-- The reflow active object as `reflow_init` leaves it: `RESET_STATE`
and the configured PID parameters. -/
def reflow_ao_init : Reflow_Active :=
  { state := RESET_STATE, pid_params := PID_Init pid_zero reflow_pid_cfg,
    step_size := 0, setpoint := 0 }

/-! ## Claims C7 and C3 -/

/-- C7: `PID_Reset` zeroes the six memory fields (integral, derivative,
previous error, previous measurement, proportional, output) and leaves
`Kp`, `Ki`, `Kd`, `tau`, `Ts` and the two output limits unchanged. -/
theorem pid_reset_frame (pid : PID_t) :
    (PID_Reset pid).integral = 0 ∧
    (PID_Reset pid).derivative = 0 ∧
    (PID_Reset pid).prev_error = 0 ∧
    (PID_Reset pid).prev_measurement = 0 ∧
    (PID_Reset pid).proportional = 0 ∧
    (PID_Reset pid).out = 0 ∧
    (PID_Reset pid).Kp = pid.Kp ∧
    (PID_Reset pid).Ki = pid.Ki ∧
    (PID_Reset pid).Kd = pid.Kd ∧
    (PID_Reset pid).tau = pid.tau ∧
    (PID_Reset pid).Ts = pid.Ts ∧
    (PID_Reset pid).out_lim_max = pid.out_lim_max ∧
    (PID_Reset pid).out_lim_min = pid.out_lim_min := by
  refine ⟨rfl, rfl, rfl, rfl, rfl, rfl, rfl, rfl, rfl, rfl, rfl, rfl, rfl⟩

/-- C3: in each `PID_Calculate` iteration the integral term is held
constant exactly when the previous output sits at one of the two limits
and the new error has the same sign (in the source's `SAMESIGN` sense) as
that output; otherwise it accumulates trapezoidally.  In particular, when
the output is pinned at a positive `out_lim_max`: a positive error leaves
the integral unchanged, and an error that has changed sign (≤ 0) resumes
trapezoidal accumulation on that iteration. -/
theorem pid_antiwindup (pid : PID_t) (s m : ℚ) (hmax : 0 < pid.out_lim_max) :
    ((PID_Calculate pid s m).1.integral =
      if (pid.out = pid.out_lim_max ∨ pid.out = pid.out_lim_min) ∧
          SAMESIGN pid.out (s - m) then
        pid.integral
      else
        pid.integral + (1/2) * pid.Ki * pid.Ts * ((s - m) + pid.prev_error)) ∧
    (pid.out = pid.out_lim_max → 0 < s - m →
      (PID_Calculate pid s m).1.integral = pid.integral) ∧
    (pid.out = pid.out_lim_max → s - m ≤ 0 →
      (PID_Calculate pid s m).1.integral =
        pid.integral + (1/2) * pid.Ki * pid.Ts * ((s - m) + pid.prev_error)) := by
  refine ⟨rfl, ?_, ?_⟩
  · intro hout herr
    show (if _ ∧ SAMESIGN pid.out (s - m) then _ else _) = pid.integral
    rw [if_pos]
    refine ⟨Or.inl hout, ?_⟩
    unfold SAMESIGN
    constructor
    · intro h0
      exact absurd (hout ▸ hmax) (not_lt.mpr h0)
    · intro h0
      exact absurd h0 (not_le.mpr herr)
  · intro hout herr
    show (if _ ∧ SAMESIGN pid.out (s - m) then _ else _) = _
    rw [if_neg]
    rintro ⟨-, hsame⟩
    have : pid.out ≤ 0 := hsame.mpr herr
    exact absurd (hout ▸ hmax) (not_lt.mpr this)

/-- Witness for `pid_antiwindup`: a concrete controller pinned at
`out_lim_max = 4095` with a positive error keeps its integral at `7`. -/
theorem pid_antiwindup_witness :
    (PID_Calculate
      { Kp := 10, Ki := 1, Kd := 0, tau := 1, Ts := 1/2,
        out_lim_max := 4095, out_lim_min := 0,
        integral := 7, derivative := 0, prev_error := 0,
        prev_measurement := 0, proportional := 0, out := 4095 }
      100 95).1.integral = 7 := by
  exact (pid_antiwindup
    { Kp := 10, Ki := 1, Kd := 0, tau := 1, Ts := 1/2,
      out_lim_max := 4095, out_lim_min := 0,
      integral := 7, derivative := 0, prev_error := 0,
      prev_measurement := 0, proportional := 0, out := 4095 }
    100 95 (by norm_num)).2.1 rfl (by norm_num)

/-! ## Claims C4, C8, C6, C1 -/

/-- C4: for every state and dispatched event, the handler invokes the
`ENTRY_SIG` cell of the state recorded after the action exactly once
(immediately after the action) when the action returned `TRAN_STATUS` or
`INIT_STATUS`, and performs no entry invocation when it returned
`HANDLED_STATUS` or `IGNORE_STATUS`. -/
theorem dispatch_entry_once (ao : Reflow_Active) (reading : Option ℚ) (sig : ReflowSig) :
    (reflow_evt_handler ao reading sig).2.2.2 =
      if (Reflow_state_table ao.state sig ao reading).1 = TRAN_STATUS ∨
          (Reflow_state_table ao.state sig ao reading).1 = INIT_STATUS then
        [(ao.state, sig),
         ((Reflow_state_table ao.state sig ao reading).2.1.state, ENTRY_SIG)]
      else
        [(ao.state, sig)] := by
  cases h : (Reflow_state_table ao.state sig ao reading).1 <;>
    simp [reflow_evt_handler, h]

/-- C8: every non-`RESET_STATE` state has enum value at least 1, and the
profile index `state - 1` it induces is strictly below
`NUM_PROFILE_PHASES`, i.e. the phase lookup of the control tick is in
bounds. -/
theorem phase_index_in_bounds (s : Reflow_State) (h : s ≠ RESET_STATE) :
    1 ≤ stateIdx s ∧ stateIdx s - 1 < NUM_PROFILE_PHASES ∧
      ∃ i : Fin 5, phaseOf s = some i ∧ (i : Nat) = stateIdx s - 1 := by
  cases s
  · exact absurd rfl h
  · exact ⟨by decide, by decide, 0, rfl, by decide⟩
  · exact ⟨by decide, by decide, 1, rfl, by decide⟩
  · exact ⟨by decide, by decide, 2, rfl, by decide⟩
  · exact ⟨by decide, by decide, 3, rfl, by decide⟩
  · exact ⟨by decide, by decide, 4, rfl, by decide⟩

/-- Witness for `phase_index_in_bounds`, at `PREHEAT_STATE`. -/
theorem phase_index_in_bounds_witness :
    1 ≤ stateIdx PREHEAT_STATE ∧ stateIdx PREHEAT_STATE - 1 < NUM_PROFILE_PHASES ∧
      ∃ i : Fin 5, phaseOf PREHEAT_STATE = some i ∧
        (i : Nat) = stateIdx PREHEAT_STATE - 1 :=
  phase_index_in_bounds PREHEAT_STATE (by decide)

/-- C6: from every state other than `RESET_STATE`, `STOP_REFLOW` stops
the periodic PID timer, transitions to `RESET_STATE` with `TRAN_STATUS`,
and the `RESET_STATE` entry action then runs exactly once (zeroing the
PWM compare register, stopping PWM, resetting the PID memory, stopping
the PID timer again and disarming the reflow time event); from
`RESET_STATE` the event is ignored and nothing changes. -/
theorem stop_from_any_running_state (ao : Reflow_Active) (reading : Option ℚ) :
    (ao.state ≠ RESET_STATE →
      reflow_evt_handler ao reading STOP_REFLOW_SIG =
        (TRAN_STATUS,
         { ao with state := RESET_STATE, pid_params := PID_Reset ao.pid_params },
         [.pidTimerStop, .pwmSetCompare 0, .pwmStop, .pidTimerStop, .timeEvtDisarm],
         [(ao.state, STOP_REFLOW_SIG), (RESET_STATE, ENTRY_SIG)])) ∧
    (ao.state = RESET_STATE →
      reflow_evt_handler ao reading STOP_REFLOW_SIG =
        (IGNORE_STATUS, ao, [], [(ao.state, STOP_REFLOW_SIG)])) := by
  obtain ⟨st, pid, step, sp⟩ := ao
  cases st <;>
    exact ⟨fun h => by first | exact absurd rfl h | rfl,
           fun h => by first | rfl | exact absurd h (by simp)⟩

/-- Witness for `stop_from_any_running_state`: stopping from
`SOAK_STATE` on the initial PID parameters lands in `RESET_STATE`. -/
theorem stop_from_any_running_state_witness :
    reflow_evt_handler { reflow_ao_init with state := SOAK_STATE } none STOP_REFLOW_SIG =
      (TRAN_STATUS,
       { reflow_ao_init with
          state := RESET_STATE
          pid_params := PID_Reset reflow_ao_init.pid_params },
       [.pidTimerStop, .pwmSetCompare 0, .pwmStop, .pidTimerStop, .timeEvtDisarm],
       [(SOAK_STATE, STOP_REFLOW_SIG), (RESET_STATE, ENTRY_SIG)]) :=
  (stop_from_any_running_state { reflow_ao_init with state := SOAK_STATE } none).1
    (by simp)

/-- Counterexample to C1 as stated: with the oven in `RESET_STATE` and a
successfully read temperature of 35.5 °C — strictly above the cool-down
target of 35 — `START_REFLOW` nevertheless takes the transition to
`PREHEAT_STATE` with `TRAN_STATUS`, because `reflow.c` compares the
reading only after truncating it with a `uint32_t` cast. -/
theorem reset_start_claim_counterexample :
    ¬((71 : ℚ) / 2 ≤ ((reflow_phases 4).reach_temp : ℚ)) ∧
    (reflow_evt_handler reflow_ao_init (some (71 / 2)) START_REFLOW_SIG).1 =
      TRAN_STATUS ∧
    (reflow_evt_handler reflow_ao_init (some (71 / 2)) START_REFLOW_SIG).2.1.state =
      PREHEAT_STATE := by
  have hcast : castToUInt32 (71 / 2) = 35 := by
    unfold castToUInt32; norm_num; decide
  have hp : (reflow_phases 4).reach_temp = 35 := rfl
  refine ⟨by rw [hp]; norm_num, ?_, ?_⟩ <;>
    simp [reflow_evt_handler, Reflow_state_table, reflow_ao_init,
      Reflow_reset_START, Reflow_preheat_ENTRY, hcast, hp]

/-- C1 as amended: in `RESET_STATE`, `START_REFLOW` takes the transition
to `PREHEAT_STATE` (status `TRAN_STATUS`) iff the temperature read
succeeds and the reading, truncated by the `uint32_t` cast, is at or
below the cool-down phase's target; on a failed read, and on a truncated
reading above the target, the handler returns `HANDLED_STATUS` and the
state remains `RESET_STATE`. -/
theorem reset_start_amended (ao : Reflow_Active) (reading : Option ℚ)
    (hs : ao.state = RESET_STATE) :
    (∀ t : ℚ, reading = some t → 0 ≤ t →
      (((reflow_evt_handler ao reading START_REFLOW_SIG).1 = TRAN_STATUS ∧
        (reflow_evt_handler ao reading START_REFLOW_SIG).2.1.state = PREHEAT_STATE) ↔
        castToUInt32 t ≤ (reflow_phases 4).reach_temp)) ∧
    (reading = none →
      (reflow_evt_handler ao reading START_REFLOW_SIG).1 = HANDLED_STATUS ∧
      (reflow_evt_handler ao reading START_REFLOW_SIG).2.1.state = RESET_STATE) ∧
    (∀ t : ℚ, reading = some t → (reflow_phases 4).reach_temp < castToUInt32 t →
      (reflow_evt_handler ao reading START_REFLOW_SIG).1 = HANDLED_STATUS ∧
      (reflow_evt_handler ao reading START_REFLOW_SIG).2.1.state = RESET_STATE) := by
  refine ⟨?_, ?_, ?_⟩
  · rintro t rfl -
    by_cases hcast : (reflow_phases 4).reach_temp < castToUInt32 t
    · constructor
      · intro hres
        exfalso
        revert hres
        simp [reflow_evt_handler, Reflow_state_table, hs, Reflow_reset_START, hcast]
      · intro hle
        exact absurd hcast (not_lt.mpr hle)
    · rw [not_lt] at hcast
      refine iff_of_true ⟨?_, ?_⟩ hcast <;>
        simp [reflow_evt_handler, Reflow_state_table, hs, Reflow_reset_START,
          Reflow_preheat_ENTRY, not_lt.mpr hcast]
  · rintro rfl
    constructor <;>
      simp [reflow_evt_handler, Reflow_state_table, hs, Reflow_reset_START]
  · rintro t rfl hcast
    constructor <;>
      simp [reflow_evt_handler, Reflow_state_table, hs, Reflow_reset_START, hcast]

/-- Witness for `reset_start_amended`: a 20 °C reading starts the run;
a failed read does not. -/
theorem reset_start_amended_witness :
    ((reflow_evt_handler reflow_ao_init (some 20) START_REFLOW_SIG).1 = TRAN_STATUS ∧
     (reflow_evt_handler reflow_ao_init (some 20) START_REFLOW_SIG).2.1.state =
       PREHEAT_STATE) ∧
    ((reflow_evt_handler reflow_ao_init none START_REFLOW_SIG).1 = HANDLED_STATUS ∧
     (reflow_evt_handler reflow_ao_init none START_REFLOW_SIG).2.1.state =
       RESET_STATE) :=
  ⟨((reset_start_amended reflow_ao_init (some 20) rfl).1 20 rfl (by norm_num)).mpr
      (by unfold castToUInt32; norm_num; decide),
   (reset_start_amended reflow_ao_init none rfl).2.1 rfl⟩

/-! ## Claims C2 and C10 -/

/-- Counterexample to C2 as stated: in `PREHEAT_STATE` (a `REACHTEMP`
phase with target 100) a successful reading of 98.5 °C is within ±2
degrees of the target, yet the control tick posts no `REACH_TEMP` event:
the C comparison truncates the reading to 98 and requires
`100 < 98 + 2` strictly. -/
theorem reach_temp_claim_counterexample :
    |(197 : ℚ) / 2 - (((reflow_phases 0).reach_temp : Nat) : ℚ)| ≤ 2 ∧
    (reflow_phases 0).phase_type = REACHTEMP ∧
    phaseOf PREHEAT_STATE = some 0 ∧
    ∃ ao2 fx,
      reflow_pid_iteration { reflow_ao_init with state := PREHEAT_STATE }
          (some (197 / 2)) = some (ao2, fx) ∧
      Effect.postSignal REACH_TEMP_SIG ∉ fx := by
  have hcast : castToUInt32 (197 / 2) = 98 := by
    unfold castToUInt32; norm_num; decide
  have hlee : leewayCheck (reflow_phases 0).reach_temp 98 = false := by decide
  refine ⟨?_, rfl, rfl, ?_⟩
  · show |(197 : ℚ) / 2 - ((100 : Nat) : ℚ)| ≤ 2
    push_cast
    rw [abs_le]
    norm_num
  · rw [reflow_pid_iteration]
    simp only [phaseOf, hcast]
    have hty : (reflow_phases 0).phase_type = REACHTEMP := rfl
    simp only [hty, if_pos rfl, hlee, Bool.false_eq_true, if_false]
    exact ⟨_, _, rfl, by simp⟩

/-- C2 as amended: during a control tick in a `REACHTEMP` phase with a
successful reading, `REACH_TEMP` is posted iff the source's
`uint32`-arithmetic window test `leewayCheck` passes on the truncated
reading; when the truncated reading `t` satisfies `2 ≤ t` (no wrap in
`t - 2`) and `t + 2 < 2^32`, that test passes iff the phase target lies
within ±1 of `t` (so a reading exactly 2 below the target, or at/above
`target + 2` after truncation, does not post); a truncated reading below
2 makes the subtraction wrap and the test fail for every in-range
target. -/
theorem reach_temp_leeway_amended :
    (∀ (ao : Reflow_Active) (r : ℚ) (i : Fin 5),
      phaseOf ao.state = some i → (reflow_phases i).phase_type = REACHTEMP →
      ∃ ao2 fx, reflow_pid_iteration ao (some r) = some (ao2, fx) ∧
        (Effect.postSignal REACH_TEMP_SIG ∈ fx ↔
          leewayCheck (reflow_phases i).reach_temp (castToUInt32 r) = true)) ∧
    (∀ reach t : Nat, 2 ≤ t → t + 2 < 4294967296 →
      (leewayCheck reach t = true ↔ t - 1 ≤ reach ∧ reach ≤ t + 1)) ∧
    (∀ reach t : Nat, t < 2 → reach < 4294967294 → leewayCheck reach t = false) := by
  refine ⟨?_, ?_, ?_⟩
  · intro ao r i hph hty
    rw [reflow_pid_iteration, hph]
    simp only [hty, if_pos rfl]
    by_cases hlee : leewayCheck (reflow_phases i).reach_temp (castToUInt32 r) = true
    · rw [hlee]
      exact ⟨_, _, rfl, by simp⟩
    · rw [Bool.not_eq_true] at hlee
      rw [hlee]
      refine ⟨_, _, rfl, by simp [hlee]⟩
  · intro reach t h2 hlt
    simp only [leewayCheck, Bool.and_eq_true, decide_eq_true_eq]
    omega
  · intro reach t h2 hlt
    have hwrap : ¬((t + (4294967296 - 2)) % 4294967296 < reach) := by omega
    simp [leewayCheck, hwrap]

/-- Witness for `reach_temp_leeway_amended`: in `PREHEAT_STATE` a
reading of 99.5 °C (truncated to 99, within ±1 of the target 100)
passes the window test; `leewayCheck 100 99` agrees with the ±1
characterization; and `leewayCheck 100 0` (a wrapped subtraction) is
false. -/
theorem reach_temp_leeway_amended_witness :
    (∃ ao2 fx,
      reflow_pid_iteration { reflow_ao_init with state := PREHEAT_STATE }
          (some (199 / 2)) = some (ao2, fx) ∧
        (Effect.postSignal REACH_TEMP_SIG ∈ fx ↔
          leewayCheck (reflow_phases 0).reach_temp (castToUInt32 (199 / 2)) = true)) ∧
    (leewayCheck 100 99 = true ↔ 99 - 1 ≤ 100 ∧ 100 ≤ 99 + 1) ∧
    leewayCheck 100 0 = false :=
  ⟨reach_temp_leeway_amended.1 { reflow_ao_init with state := PREHEAT_STATE }
      (199 / 2) 0 rfl rfl,
   reach_temp_leeway_amended.2.1 100 99 (by decide) (by decide),
   reach_temp_leeway_amended.2.2 100 0 (by decide) (by decide)⟩

/-- C10: when the temperature read fails in a non-`RESET_STATE` state,
the control tick posts `STOP_REFLOW` to the reflow object but still
completes the tick: the phase check runs (a `REACHTIME` phase advances
the setpoint by `step_size`; a `REACHTEMP` phase with the local
measurement left at 0 never posts `REACH_TEMP`), one `PID_Calculate`
runs with measurement 0 — updating the PID memory — and its output,
cast to `uint16_t`, is written to the PWM compare register. -/
theorem read_fail_tick_still_controls (ao : Reflow_Active)
    (h : ao.state ≠ RESET_STATE) :
    ∃ i : Fin 5, phaseOf ao.state = some i ∧
      ((reflow_phases i).phase_type = REACHTEMP →
        reflow_pid_iteration ao none =
          some ({ ao with pid_params := (PID_Calculate ao.pid_params ao.setpoint 0).1 },
            [.postSignal STOP_REFLOW_SIG,
             .pwmSetCompare (castToUInt16 (PID_Calculate ao.pid_params ao.setpoint 0).2)])) ∧
      ((reflow_phases i).phase_type = REACHTIME →
        reflow_pid_iteration ao none =
          some ({ ao with
                  setpoint := ao.setpoint + ao.step_size
                  pid_params :=
                    (PID_Calculate ao.pid_params (ao.setpoint + ao.step_size) 0).1 },
            [.postSignal STOP_REFLOW_SIG,
             .pwmSetCompare
               (castToUInt16
                 (PID_Calculate ao.pid_params (ao.setpoint + ao.step_size) 0).2)])) := by
  obtain ⟨st, pid, step, sp⟩ := ao
  cases st
  · exact absurd rfl h
  · exact ⟨0, rfl, fun _ => rfl, fun hty => absurd hty (by decide)⟩
  · exact ⟨1, rfl, fun hty => absurd hty (by decide), fun _ => rfl⟩
  · exact ⟨2, rfl, fun _ => rfl, fun hty => absurd hty (by decide)⟩
  · exact ⟨3, rfl, fun hty => absurd hty (by decide), fun _ => rfl⟩
  · exact ⟨4, rfl, fun _ => rfl, fun hty => absurd hty (by decide)⟩

/-- Witness for `read_fail_tick_still_controls`, at `PREHEAT_STATE`. -/
theorem read_fail_tick_still_controls_witness :
    ∃ i : Fin 5,
      phaseOf ({ reflow_ao_init with state := PREHEAT_STATE } : Reflow_Active).state =
        some i ∧
      ((reflow_phases i).phase_type = REACHTEMP →
        reflow_pid_iteration { reflow_ao_init with state := PREHEAT_STATE } none =
          some ({ { reflow_ao_init with state := PREHEAT_STATE } with
                  pid_params :=
                    (PID_Calculate reflow_ao_init.pid_params reflow_ao_init.setpoint 0).1 },
            [.postSignal STOP_REFLOW_SIG,
             .pwmSetCompare
               (castToUInt16
                 (PID_Calculate reflow_ao_init.pid_params reflow_ao_init.setpoint 0).2)])) ∧
      ((reflow_phases i).phase_type = REACHTIME →
        reflow_pid_iteration { reflow_ao_init with state := PREHEAT_STATE } none =
          some ({ { reflow_ao_init with state := PREHEAT_STATE } with
                  setpoint := reflow_ao_init.setpoint + reflow_ao_init.step_size
                  pid_params :=
                    (PID_Calculate reflow_ao_init.pid_params
                      (reflow_ao_init.setpoint + reflow_ao_init.step_size) 0).1 },
            [.postSignal STOP_REFLOW_SIG,
             .pwmSetCompare
               (castToUInt16
                 (PID_Calculate reflow_ao_init.pid_params
                   (reflow_ao_init.setpoint + reflow_ao_init.step_size) 0).2)])) :=
  read_fail_tick_still_controls { reflow_ao_init with state := PREHEAT_STATE }
    (by simp)

end Reflow
